import Mathlib

/-!
# Verification of the KVM cloud adapter (`pycloudlib/kvm/cloud.py`)

A shallow embedding of the image-resolution and instance-type-catalog logic
of the `KVM` cloud class.  External collaborators (the simple-streams query
service, the HTTP transport serving the instance-type catalog, the local
filesystem) are modelled as explicit function parameters; the embedded
operations additionally return a log of the external calls they issue, so
that claims about "which queries are issued" become statements about that
log.

Python runtime faults and raised exceptions are modelled by the `PyError`
type: `runtimeError`/`valueError` mirror the exception classes the code
raises explicitly, and `indexError` is the fault Python produces when the
code indexes into an empty list.  The specification's abstract error
taxonomy names are mapped onto these below (`unknownRemoteError`,
`unknownInstanceTypeError`); `notFoundError` is a spec-level error class
with no counterpart in the code and is included so that spec claims about
it can be stated and compared against the code's actual behavior.
-/

set_option autoImplicit false

namespace KVMCloud

/-- Python exceptions/faults observable from the embedded code. -/
inductive PyError where
  | runtimeError (msg : String)
  | valueError (msg : String)
  | indexError
  | notFoundError
  deriving DecidableEq, Repr

/-- `RuntimeError('Unknown remote: %s' % remote)` as raised at
`cloud.py:187`, identified with the spec's `UnknownRemoteError`. -/
def unknownRemoteError (remote : String) : PyError :=
  .runtimeError ("Unknown remote: " ++ remote)

/-- `RuntimeError('Unknown instance type: %s' % instance_type)` as raised at
`cloud.py:87`, identified with the spec's `UnknownInstanceTypeError`. -/
def unknownInstanceTypeError (ty : String) : PyError :=
  .runtimeError ("Unknown instance type: " ++ ty)

/-- An image descriptor record returned by a streams query; the code reads
the `sha256` and `version_name` fields. -/
structure Descriptor where
  sha256 : String
  version_name : String
  deriving DecidableEq, Repr

/-- One issued streams query: the filter list passed to `_streams_query`
and the `daily` flag selecting the remote (`true` = daily remote,
`false` = release remote). -/
structure QueryCall where
  filters : List String
  daily : Bool
  deriving DecidableEq, Repr

/-- The external streams service: given filters and the daily flag, the
ordered sequence of matching descriptors. -/
def StreamsQuery : Type := List String → Bool → List Descriptor

/-- `KVM._daily_remote` (`cloud.py:18`). -/
def dailyRemote : String := "daily"

/-- `KVM._releases_remote` (`cloud.py:19`). -/
def releasesRemote : String := "release"

/-- Split a character list at the first occurrence of `sep`:
`some (before, after)` when `sep` occurs, `none` otherwise.  This models
Python's `sep in s` test together with `s[:s.index(sep)]` and
`s[s.index(sep)+1:]` slicing. -/
def splitFirst (sep : Char) : List Char → Option (List Char × List Char)
  | [] => none
  | c :: cs =>
    if c = sep then some ([], cs)
    else
      match splitFirst sep cs with
      | none => none
      | some (a, b) => some (c :: a, b)

/-- `image_serial` (`cloud.py:167-191`): parse the optional `remote:` prefix
of `image_id`, pick the remote, query `{sha256=<id>}` and return the
`version_name` of element 0 of the result.  Returns the result together
with the log of issued streams queries. -/
def image_serial (query : StreamsQuery) (image_id : String) :
    Except PyError String × List QueryCall :=
  let parsed : Except PyError (Bool × String) :=
    match splitFirst ':' image_id.data with
    | none => .ok (true, image_id)
    | some (r, rest) =>
      let remote : String := ⟨r⟩
      let imgId : String := ⟨rest⟩
      if remote = releasesRemote then .ok (false, imgId)
      else if remote = dailyRemote then .ok (true, imgId)
      else .error (unknownRemoteError remote)
  match parsed with
  | .error e => (.error e, [])
  | .ok (daily, imgId) =>
    let filters := ["sha256=" ++ imgId]
    match query filters daily with
    | [] => (.error .indexError, [⟨filters, daily⟩])
    | d :: _ => (.ok d.version_name, [⟨filters, daily⟩])

/-- The filter list built by `_find_image` (`cloud.py:209-214`). -/
def findFilters (release arch : String) : List String :=
  ["datatype=image-downloads", "ftype=disk1.img",
   "arch=" ++ arch, "release=" ++ release]

/-- `_find_image` (`cloud.py:198-216`): build the filter list, issue one
streams query scoped by `daily`, and return element 0 of the result. -/
def find_image (query : StreamsQuery) (release arch : String) (daily : Bool) :
    Except PyError Descriptor × List QueryCall :=
  let filters := findFilters release arch
  match query filters daily with
  | [] => (.error .indexError, [⟨filters, daily⟩])
  | d :: _ => (.ok d, [⟨filters, daily⟩])

/-- `released_image` (`cloud.py:135-149`): `_find_image` with `daily=False`,
formatted as `'%s:%s' % (_releases_remote, sha256)`. -/
def released_image (query : StreamsQuery) (release arch : String) :
    Except PyError String × List QueryCall :=
  match find_image query release arch false with
  | (.ok d, log) => (.ok (releasesRemote ++ ":" ++ d.sha256), log)
  | (.error e, log) => (.error e, log)

/-- `daily_image` (`cloud.py:151-165`): `_find_image` with `daily=True`,
formatted as `'%s:%s' % (_daily_remote, sha256)`. -/
def daily_image (query : StreamsQuery) (release arch : String) :
    Except PyError String × List QueryCall :=
  match find_image query release arch true with
  | (.ok d, log) => (.ok (dailyRemote ++ ":" ++ d.sha256), log)
  | (.error e, log) => (.error e, log)

/-- The whitespace class of the regex `\s` (so `\S` is its negation). -/
def isSpaceChar (c : Char) : Bool :=
  c = ' ' || c = '\t' || c = '\n' || c = '\r' ||
  c = '\x0b' || c = '\x0c'

/-- Consume the literal `lit` from the front of `cs`, returning the
remainder if `cs` starts with `lit`. -/
def dropLit : List Char → List Char → Option (List Char)
  | [], cs => some cs
  | _ :: _, [] => none
  | p :: ps, c :: cs => if c = p then dropLit ps cs else none

/-- Decider for the regex `^(release|daily):\S+$`. -/
def matchesRemotePattern (s : String) : Bool :=
  let tail :=
    match dropLit "release:".data s.data with
    | some r => some r
    | none => dropLit "daily:".data s.data
  match tail with
  | some r => !r.isEmpty && r.all (fun c => !isSpaceChar c)
  | none => false

/-! ## Instance-type catalog (`_get_instance_types`, `cloud.py:218-229`) -/

/-- One instance-type specification entry: the `cpu` and `mem` fields of a
specification file.  YAML numeric values (which may be fractional, e.g.
`mem: 1.5`) are embedded as exact rationals. -/
structure InstanceSpec where
  cpu : ℚ
  mem : ℚ
  deriving DecidableEq, Repr

/-- A Python dict keyed by strings, in insertion order. -/
abbrev SpecDict := List (String × InstanceSpec)

/-- Python dict assignment `d[k] = v`: replace the value in place when the
key is present, append otherwise. -/
def dinsert : SpecDict → String → InstanceSpec → SpecDict
  | [], k, v => [(k, v)]
  | (k', v') :: rest, k, v =>
    if k' = k then (k, v) :: rest else (k', v') :: dinsert rest k v

/-- Python dict lookup `d[k]` / membership `k in d`. -/
def dlookup : SpecDict → String → Option InstanceSpec
  | [], _ => none
  | (k', v) :: rest, k => if k' = k then some v else dlookup rest k

/-- Python `d.update(news)`: assign every entry of `news` into `d`, in
order, so later entries overwrite earlier ones with the same key. -/
def dictUpdate (d : SpecDict) (news : SpecDict) : SpecDict :=
  news.foldl (fun acc kv => dinsert acc kv.1 kv.2) d

/-- The remote instance-type catalog: the index document's referenced
specification-file paths (`known_clouds.values()`, in enumeration order)
and the parsed content of each specification file. -/
structure Transport where
  indexFiles : List String
  specFile : String → SpecDict

/-- The fetch-and-merge loop of `_get_instance_types` (`cloud.py:222-227`):
start from an empty dict and `update` with every referenced specification
file in index enumeration order. -/
def fetchInstanceTypes (t : Transport) : SpecDict :=
  t.indexFiles.foldl (fun acc f => dictUpdate acc (t.specFile f)) []

/-- Number of remote fetches a full catalog build performs: one for the
index document plus one per referenced specification file. -/
def fullFetchCount (t : Transport) : Nat :=
  1 + t.indexFiles.length

/-- The cached `self._instance_types` field: `none` models Python `None`
(the value set in `__init__`), `some m` a previously stored dict. -/
abbrev CatalogState := Option SpecDict

/-- Python truthiness of `self._instance_types` as tested by
`if self._instance_types:` — false for `None` and for an empty dict. -/
def catalogTruthy : CatalogState → Bool
  | none => false
  | some m => !m.isEmpty

/-- `_get_instance_types` (`cloud.py:218-229`): return the cached dict when
it is truthy, otherwise fetch the index and every specification file,
merge, store and return.  Result: the returned mapping, the new value of
`self._instance_types`, and the number of remote fetches issued by this
call. -/
def get_instance_types (t : Transport) (st : CatalogState) :
    SpecDict × CatalogState × Nat :=
  match st with
  | some m =>
    if !m.isEmpty then (m, some m, 0)
    else
      let m' := fetchInstanceTypes t
      (m', some m', fullFetchCount t)
  | none =>
    let m' := fetchInstanceTypes t
    (m', some m', fullFetchCount t)

/-! ## `launch` (`cloud.py:53-111`) -/

/-- Python `int()` applied to a number: truncation toward zero. -/
def pyInt (q : ℚ) : ℤ :=
  if 0 ≤ q then ⌊q⌋ else ⌈q⌉

/-- Modelled from the spec: the conversion rule the specification states
for memory values, `bytes = round(value * 1024^3)` — rounding to the
nearest integer (`⌊x + 1/2⌋`; the tie-breaking rule is irrelevant to the
claims considered, no half-integer products arise).  The code itself uses
`int(...)` (truncation, `pyInt`); this definition exists to compare the
spec's words against the code. -/
def specRoundBytes (v : ℚ) : ℤ :=
  ⌊v * 1024 ^ 3 + 1 / 2⌋

/-- `specRoundBytes` agrees with Mathlib's `round`. -/
theorem specRoundBytes_eq_round (v : ℚ) :
    specRoundBytes v = round (v * 1024 ^ 3) :=
  (round_eq _).symm

/-- One invocation of `subp(cmd, data=data)`: the command argv and the
optional stdin data. -/
structure SubpCall where
  cmd : List String
  data : Option String
  deriving DecidableEq, Repr

/-- Python truthiness of an optional-string argument defaulting to `None`
(`if not name:`, `if instance_type:`, `if user_data:`): false exactly for
`None` and for the empty string. -/
def optStrTruthy : Option String → Bool
  | none => false
  | some s => !(s == "")

/-- `launch` (`cloud.py:53-111`).  External collaborators are parameters:
`t` the instance-type catalog transport, `isfile`/`readf` the local
filesystem (`os.path.isfile` / `open(...).read()`), `tag` is `self.tag`,
`st` the current `self._instance_types`.  Returns the launch result (the
name of the created instance, or the raised error), the new catalog state,
and the log of `subp` invocations. -/
def launch (t : Transport) (isfile : String → Bool) (readf : String → String)
    (tag : String) (st : CatalogState)
    (image_id : String) (instance_type : Option String)
    (user_data : Option String) (wait : Bool) (name : Option String) :
    Except PyError String × CatalogState × List SubpCall :=
  let name := if optStrTruthy name then name.getD tag else tag
  if !wait then
    (.error (.valueError "KVM launch cannot be called with wait=False"), st, [])
  else
    let image_id :=
      match splitFirst ':' image_id.data with
      | none => dailyRemote ++ ":" ++ image_id
      | some _ => image_id
    let cmd := ["multipass", "launch", "--name", name]
    let tyStep : Except PyError (List String × CatalogState) :=
      match instance_type with
      | some ty =>
        if !(ty == "") then
          let inst_types := (get_instance_types t st).1
          let st' := (get_instance_types t st).2.1
          match dlookup inst_types ty with
          | none => .error (unknownInstanceTypeError ty)
          | some spec =>
            let inst_cpus := toString (pyInt spec.cpu)
            let inst_mem := toString (pyInt (spec.mem * 1024 ^ 3))
            .ok (cmd ++ ["--cpus", inst_cpus, "--mem", inst_mem], st')
        else .ok (cmd, st)
      | none => .ok (cmd, st)
    match tyStep with
    | .error e => (.error e, (get_instance_types t st).2.1, [])
    | .ok (cmd, st') =>
      let cmd := cmd ++ [image_id]
      let (cmd, data) :=
        match user_data with
        | some ud =>
          if !(ud == "") then
            (cmd ++ ["--cloud-init", "-"],
             some (if isfile ud then readf ud else ud))
          else (cmd, none)
        | none => (cmd, none)
      (.ok name, st', [⟨cmd, data⟩])

/-! ## Helper lemmas -/

theorem mk_data (s : String) : String.mk s.data = s := by
  cases s
  rfl

theorem splitFirst_of_not_mem {sep : Char} :
    ∀ {l : List Char}, sep ∉ l → splitFirst sep l = none := by
  intro l
  induction l with
  | nil => intro _; rfl
  | cons c cs ih =>
    intro h
    have hc : ¬ c = sep := fun hcs => h (hcs ▸ List.mem_cons_self c cs)
    have hcs : sep ∉ cs := fun hm => h (List.mem_cons_of_mem c hm)
    simp [splitFirst, hc, ih hcs]

theorem splitFirst_append {sep : Char} :
    ∀ {l : List Char} (r : List Char), sep ∉ l →
      splitFirst sep (l ++ sep :: r) = some (l, r) := by
  intro l
  induction l with
  | nil => intro r _; simp [splitFirst]
  | cons c cs ih =>
    intro r h
    have hc : ¬ c = sep := fun hcs => h (hcs ▸ List.mem_cons_self c cs)
    have hcs : sep ∉ cs := fun hm => h (List.mem_cons_of_mem c hm)
    simp [splitFirst, hc, ih r hcs]

theorem data_append_colon (pre s : String) :
    (pre ++ ":" ++ s).data = pre.data ++ ':' :: s.data := by
  cases pre
  cases s
  simp [String.data]

theorem data_ne_nil_of_ne_empty {s : String} (h : s ≠ "") : s.data ≠ [] := by
  intro hd
  apply h
  cases s
  simp at hd
  subst hd
  rfl

theorem dropLit_append : ∀ (l r : List Char), dropLit l (l ++ r) = some r := by
  intro l
  induction l with
  | nil => intro r; rfl
  | cons c cs ih => intro r; simp [dropLit, ih]

/-! ## Claims -/

/-- C1: `image_serial` on a reference whose hash matches no entry — the
streams query for `{sha256=<id>}` returns the empty sequence — does not
fail with `NotFoundError`: the code indexes element 0 of the empty result
and faults with an `IndexError`.  Concrete evaluation at
`"daily:deadbeef"` with a query returning no descriptors. -/
theorem imageSerial_empty_result_faults :
    image_serial (fun _ _ => []) "daily:deadbeef" =
      (.error .indexError, [⟨["sha256=deadbeef"], true⟩]) ∧
    PyError.indexError ≠ PyError.notFoundError := by
  exact ⟨rfl, by decide⟩

/-- C2 counterexample: with a streams query returning the empty sequence,
`_find_image "xenial" "amd64" daily=false` does not fail with
`NotFoundError` as the claim states — it faults with an `IndexError` from
indexing into the empty result. -/
theorem findImage_empty_result_not_notFound :
    (find_image (fun _ _ => []) "xenial" "amd64" false).1 =
      .error .indexError ∧
    (find_image (fun _ _ => []) "xenial" "amd64" false).1 ≠
      .error .notFoundError := by
  exact ⟨rfl, by simp [find_image, findFilters]⟩

/-- C2 (amended): for every release, architecture and daily flag, if the
streams query for the constructed filter set returns an empty sequence,
`_find_image` faults with an `IndexError` (the unchecked `[0]` on the
empty result) after issuing exactly that one query; it does not raise
`NotFoundError`. -/
theorem findImage_empty_result_indexError
    (query : StreamsQuery) (release arch : String) (daily : Bool)
    (h : query (findFilters release arch) daily = []) :
    find_image query release arch daily =
      (.error .indexError, [⟨findFilters release arch, daily⟩]) := by
  simp [find_image, h]

/-- Witness for C2's amended theorem at a concrete empty-result query. -/
theorem findImage_empty_result_indexError_witness :
    find_image (fun _ _ => []) "bionic" "arm64" true =
      (.error .indexError, [⟨findFilters "bionic" "arm64", true⟩]) :=
  findImage_empty_result_indexError (fun _ _ => []) "bionic" "arm64" true rfl

/-- The query-and-index step shared by both branches of `image_serial`
(`cloud.py:189-191`), named for use in lemma statements. -/
def queryStep (query : StreamsQuery) (daily : Bool) (imgId : String) :
    Except PyError String × List QueryCall :=
  match query ["sha256=" ++ imgId] daily with
  | [] => (.error .indexError, [⟨["sha256=" ++ imgId], daily⟩])
  | d :: _ => (.ok d.version_name, [⟨["sha256=" ++ imgId], daily⟩])

theorem queryStep_snd (query : StreamsQuery) (daily : Bool) (imgId : String) :
    (queryStep query daily imgId).2 = [⟨["sha256=" ++ imgId], daily⟩] := by
  unfold queryStep
  cases query ["sha256=" ++ imgId] daily <;> rfl

theorem image_serial_of_no_colon (query : StreamsQuery) (s : String)
    (h : splitFirst ':' s.data = none) :
    image_serial query s = queryStep query true s := by
  simp only [image_serial, h, queryStep]

theorem image_serial_of_split (query : StreamsQuery) (s remote imgId : String)
    (hsplit : splitFirst ':' s.data = some (remote.data, imgId.data)) :
    image_serial query s =
      if remote = releasesRemote then queryStep query false imgId
      else if remote = dailyRemote then queryStep query true imgId
      else (.error (unknownRemoteError remote), []) := by
  simp only [image_serial, hsplit, mk_data, queryStep]
  by_cases h1 : remote = releasesRemote
  · rw [if_pos h1, if_pos h1]
  · rw [if_neg h1, if_neg h1]
    by_cases h2 : remote = dailyRemote
    · rw [if_pos h2, if_pos h2]
    · rw [if_neg h2, if_neg h2]

theorem split_lit_colon (pre : String) (id : String)
    (h : ':' ∉ pre.data) :
    splitFirst ':' ((pre ++ ":" ++ id)).data = some (pre.data, id.data) := by
  rw [data_append_colon pre id]
  exact splitFirst_append id.data h

/-- C3: remote selection in `image_serial`.  For every streams query and
strings `s`, `id`, `r`: (1) when `s` contains no `:` the single issued
query goes to the daily remote; (2) a `release:` prefix sends the single
query to the release remote; (3) a `daily:` prefix sends it to the daily
remote; (4) any other prefix `r` (colon-free, neither `release` nor
`daily`) makes `image_serial` fail with `UnknownRemoteError` having issued
no query at all. -/
theorem imageSerial_remote_selection
    (query : StreamsQuery) (s id r : String) :
    (¬ ':' ∈ s.data →
      (image_serial query s).2 = [⟨["sha256=" ++ s], true⟩]) ∧
    (image_serial query ("release" ++ ":" ++ id)).2 =
      [⟨["sha256=" ++ id], false⟩] ∧
    (image_serial query ("daily" ++ ":" ++ id)).2 =
      [⟨["sha256=" ++ id], true⟩] ∧
    (¬ ':' ∈ r.data → r ≠ releasesRemote → r ≠ dailyRemote →
      image_serial query (r ++ ":" ++ id) =
        (.error (unknownRemoteError r), [])) := by
  refine ⟨?_, ?_, ?_, ?_⟩
  · intro hs
    rw [image_serial_of_no_colon query s (splitFirst_of_not_mem hs),
        queryStep_snd]
  · rw [image_serial_of_split query _ "release" id
          (split_lit_colon "release" id (by decide)),
        if_pos (show "release" = releasesRemote from rfl), queryStep_snd]
  · rw [image_serial_of_split query _ "daily" id
          (split_lit_colon "daily" id (by decide)),
        if_neg (show ¬ "daily" = releasesRemote by decide),
        if_pos (show "daily" = dailyRemote from rfl), queryStep_snd]
  · intro hr hrel hdaily
    rw [image_serial_of_split query _ r id (split_lit_colon r id hr),
        if_neg hrel, if_neg hdaily]

/-- Witness for C3 at concrete inputs: `s = "abc123"` (no prefix),
`id = "xyz"`, bogus remote `r = "bogus"`, with a query returning no
descriptors. -/
theorem imageSerial_remote_selection_witness :
    (image_serial (fun _ _ => []) "abc123").2 =
      [⟨["sha256=" ++ "abc123"], true⟩] ∧
    (image_serial (fun _ _ => []) ("release:" ++ "xyz")).2 =
      [⟨["sha256=" ++ "xyz"], false⟩] ∧
    (image_serial (fun _ _ => []) ("daily:" ++ "xyz")).2 =
      [⟨["sha256=" ++ "xyz"], true⟩] ∧
    image_serial (fun _ _ => []) ("bogus" ++ ":" ++ "xyz") =
      (.error (unknownRemoteError "bogus"), []) := by
  have h := imageSerial_remote_selection (fun _ _ => []) "abc123" "xyz" "bogus"
  exact ⟨h.1 (by decide), h.2.1, h.2.2.1,
    h.2.2.2 (by decide) (by decide) (by decide)⟩

/-- C7: for every streams query, release, architecture and daily flag,
`_find_image` issues exactly one query, whose filter list is
`[datatype=image-downloads, ftype=disk1.img, arch=<arch>,
release=<release>]` and whose remote is daily iff the flag is set; and
whenever the query's result sequence is nonempty, the returned descriptor
is its head. -/
theorem findImage_single_query_head
    (query : StreamsQuery) (release arch : String) (daily : Bool) :
    (find_image query release arch daily).2 =
      [⟨["datatype=image-downloads", "ftype=disk1.img",
         "arch=" ++ arch, "release=" ++ release], daily⟩] ∧
    ∀ d rest, query (findFilters release arch) daily = d :: rest →
      (find_image query release arch daily).1 = .ok d := by
  constructor
  · show (find_image query release arch daily).2 = [⟨findFilters release arch, daily⟩]
    simp only [find_image]
    rcases hq : query (findFilters release arch) daily with _ | ⟨d, rest⟩ <;>
      rfl
  · intro d rest h
    simp [find_image, h]

/-- Witness for C7 at a concrete one-descriptor query. -/
theorem findImage_single_query_head_witness :
    (find_image (fun _ _ => [⟨"cafe", "20230101"⟩]) "focal" "amd64" true).1 =
      .ok ⟨"cafe", "20230101"⟩ :=
  (findImage_single_query_head (fun _ _ => [⟨"cafe", "20230101"⟩])
      "focal" "amd64" true).2 ⟨"cafe", "20230101"⟩ [] rfl

theorem matchesRemotePattern_release (sha : String) (h1 : sha ≠ "")
    (h2 : sha.data.all (fun c => !isSpaceChar c) = true) :
    matchesRemotePattern ("release" ++ ":" ++ sha) = true := by
  have hd : ("release" ++ ":" ++ sha).data = "release:".data ++ sha.data := by
    rw [data_append_colon]
    rfl
  unfold matchesRemotePattern
  rw [hd, dropLit_append]
  cases hsd : sha.data with
  | nil => exact absurd hsd (data_ne_nil_of_ne_empty h1)
  | cons c cs =>
    rw [hsd] at h2
    simp [h2]

theorem matchesRemotePattern_daily (sha : String) (h1 : sha ≠ "")
    (h2 : sha.data.all (fun c => !isSpaceChar c) = true) :
    matchesRemotePattern ("daily" ++ ":" ++ sha) = true := by
  have hd : ("daily" ++ ":" ++ sha).data = "daily:".data ++ sha.data := by
    rw [data_append_colon]
    rfl
  have hnone : dropLit "release:".data ("daily:".data ++ sha.data) = none := by
    rfl
  unfold matchesRemotePattern
  rw [hd, hnone, dropLit_append]
  cases hsd : sha.data with
  | nil => exact absurd hsd (data_ne_nil_of_ne_empty h1)
  | cons c cs =>
    rw [hsd] at h2
    simp [h2]

/-- C8: when `_find_image` succeeds, `released_image` returns
`"release:" ++ sha256` of the head descriptor of the `daily=false` query,
`daily_image` returns `"daily:" ++ sha256` of the head descriptor of the
`daily=true` query, and (for hash fields that are nonempty and free of
whitespace, as content hashes are) both match `^(release|daily):\S+$`. -/
theorem releasedImage_dailyImage_format
    (query : StreamsQuery) (release arch : String)
    (d e : Descriptor) (rest rest' : List Descriptor)
    (hq1 : query (findFilters release arch) false = d :: rest)
    (hq2 : query (findFilters release arch) true = e :: rest')
    (hd1 : d.sha256 ≠ "")
    (hd2 : d.sha256.data.all (fun c => !isSpaceChar c) = true)
    (he1 : e.sha256 ≠ "")
    (he2 : e.sha256.data.all (fun c => !isSpaceChar c) = true) :
    released_image query release arch =
      (.ok ("release" ++ ":" ++ d.sha256), [⟨findFilters release arch, false⟩]) ∧
    daily_image query release arch =
      (.ok ("daily" ++ ":" ++ e.sha256), [⟨findFilters release arch, true⟩]) ∧
    matchesRemotePattern ("release" ++ ":" ++ d.sha256) = true ∧
    matchesRemotePattern ("daily" ++ ":" ++ e.sha256) = true := by
  refine ⟨?_, ?_, matchesRemotePattern_release d.sha256 hd1 hd2,
    matchesRemotePattern_daily e.sha256 he1 he2⟩
  · simp [released_image, find_image, hq1, releasesRemote]
  · simp [daily_image, find_image, hq2, dailyRemote]

/-- Witness for C8 at a concrete two-remote query. -/
theorem releasedImage_dailyImage_format_witness :
    released_image
        (fun _ daily => if daily then [⟨"dd11", "20230202"⟩] else [⟨"ee22", "20230101"⟩])
        "jammy" "amd64" =
      (.ok ("release" ++ ":" ++ "ee22"), [⟨findFilters "jammy" "amd64", false⟩]) ∧
    matchesRemotePattern ("release" ++ ":" ++ "ee22") = true := by
  have h := releasedImage_dailyImage_format
    (fun _ daily => if daily then [⟨"dd11", "20230202"⟩] else [⟨"ee22", "20230101"⟩])
    "jammy" "amd64" ⟨"ee22", "20230101"⟩ ⟨"dd11", "20230202"⟩ [] []
    rfl rfl (by decide) (by decide) (by decide) (by decide)
  exact ⟨h.1, h.2.2.1⟩

/-! ## Dictionary lemmas for the instance-type catalog -/

theorem dlookup_dinsert (d : SpecDict) (k k' : String) (v : InstanceSpec) :
    dlookup (dinsert d k v) k' = if k = k' then some v else dlookup d k' := by
  induction d with
  | nil => simp [dinsert, dlookup]
  | cons kv rest ih =>
    obtain ⟨a, b⟩ := kv
    by_cases hak : a = k
    · subst hak
      simp [dinsert, dlookup]
      by_cases hkk : a = k' <;> simp [hkk]
    · simp [dinsert, hak, dlookup]
      by_cases hak' : a = k'
      · subst hak'
        have : ¬ k = a := fun h => hak h.symm
        simp [this, dlookup]
      · simp [hak', ih]

theorem dlookup_eq_none_of_not_mem {l : SpecDict} {k : String}
    (h : k ∉ l.map Prod.fst) : dlookup l k = none := by
  induction l with
  | nil => rfl
  | cons kv rest ih =>
    obtain ⟨a, b⟩ := kv
    simp only [List.map_cons, List.mem_cons] at h
    push_neg at h
    have ha : ¬ a = k := fun hh => h.1 hh.symm
    simp [dlookup, ha, ih h.2]

theorem dlookup_dictUpdate_of_none (d : SpecDict) {news : SpecDict} {k : String}
    (h : dlookup news k = none) :
    dlookup (dictUpdate d news) k = dlookup d k := by
  induction news generalizing d with
  | nil => rfl
  | cons kv rest ih =>
    obtain ⟨a, b⟩ := kv
    by_cases hak : a = k
    · simp [dlookup, hak] at h
    · simp only [dlookup, if_neg hak] at h
      show dlookup (dictUpdate (dinsert d a b) rest) k = dlookup d k
      rw [ih (dinsert d a b) h, dlookup_dinsert, if_neg hak]

theorem dlookup_dictUpdate_of_some (d : SpecDict) {news : SpecDict} {k : String}
    {v : InstanceSpec} (hnd : (news.map Prod.fst).Nodup)
    (h : dlookup news k = some v) :
    dlookup (dictUpdate d news) k = some v := by
  induction news generalizing d with
  | nil => simp [dlookup] at h
  | cons kv rest ih =>
    obtain ⟨a, b⟩ := kv
    simp only [List.map_cons, List.nodup_cons] at hnd
    by_cases hak : a = k
    · subst hak
      have hbv : b = v := by simpa [dlookup] using h
      subst hbv
      have hrest : dlookup rest a = none :=
        dlookup_eq_none_of_not_mem hnd.1
      show dlookup (dictUpdate (dinsert d a b) rest) a = some b
      rw [dlookup_dictUpdate_of_none (dinsert d a b) hrest,
          dlookup_dinsert, if_pos rfl]
    · simp only [dlookup, if_neg hak] at h
      exact ih (dinsert d a b) hnd.2 h

theorem dlookup_foldl_of_none (spec : String → SpecDict)
    {l : List String} (d : SpecDict) {k : String}
    (h : ∀ f ∈ l, dlookup (spec f) k = none) :
    dlookup (l.foldl (fun acc f => dictUpdate acc (spec f)) d) k =
      dlookup d k := by
  induction l generalizing d with
  | nil => rfl
  | cons f rest ih =>
    rw [List.foldl_cons,
        ih (dictUpdate d (spec f)) (fun g hg => h g (List.mem_cons_of_mem f hg)),
        dlookup_dictUpdate_of_none d (h f (List.mem_cons_self f rest))]

/-- C6: last-fetched file wins.  If the provider index enumerates the
specification files as `l₁ ++ g :: l₂`, some earlier file `f ∈ l₁` defines
the key `k` with value `w`, the later file `g` defines the same key `k`
with a different value `v` (its keys being unique, as keys of a parsed
YAML mapping are), and no file after `g` defines `k`, then the merged
catalog built by `_get_instance_types` maps `k` to `v`, the value from the
file merged last. -/
theorem fetchInstanceTypes_last_wins
    (t : Transport) (l₁ l₂ : List String) (g f : String)
    (k : String) (v w : InstanceSpec)
    (hidx : t.indexFiles = l₁ ++ g :: l₂)
    (hf : f ∈ l₁) (hfk : dlookup (t.specFile f) k = some w) (hne : w ≠ v)
    (hnd : ((t.specFile g).map Prod.fst).Nodup)
    (hg : dlookup (t.specFile g) k = some v)
    (hafter : ∀ f' ∈ l₂, dlookup (t.specFile f') k = none) :
    dlookup (fetchInstanceTypes t) k = some v := by
  unfold fetchInstanceTypes
  rw [hidx, List.foldl_append, List.foldl_cons,
      dlookup_foldl_of_none t.specFile _ hafter,
      dlookup_dictUpdate_of_some _ hnd hg]

/-- Witness for C6: two files both defining `"small"`, the later one with
`cpu = 2`; the merged catalog holds the later value. -/
theorem fetchInstanceTypes_last_wins_witness :
    dlookup
      (fetchInstanceTypes
        ⟨["a", "b"], fun f => if f = "a"
          then [("small", ⟨1, 1⟩)] else [("small", ⟨2, 1⟩)]⟩)
      "small" = some ⟨2, 1⟩ :=
  fetchInstanceTypes_last_wins
    ⟨["a", "b"], fun f => if f = "a"
      then [("small", ⟨1, 1⟩)] else [("small", ⟨2, 1⟩)]⟩
    ["a"] [] "b" "a" "small" ⟨2, 1⟩ ⟨1, 1⟩
    rfl (List.mem_singleton.mpr rfl) rfl
    (fun h => by
      rw [InstanceSpec.mk.injEq] at h
      exact absurd h.1 (by norm_num))
    (by simp) rfl
    (fun f' hf' => absurd hf' (List.not_mem_nil f'))

/-- C5 counterexample: the claim fails when the first call yields an empty
catalog.  With a transport whose index references no specification files,
the first call returns the empty mapping and the second call issues a
remote fetch again (fetch count 1, not 0). -/
theorem getInstanceTypes_second_call_fetches :
    (get_instance_types ⟨[], fun _ => []⟩
        ((get_instance_types ⟨[], fun _ => []⟩ none).2.1)).2.2 = 1 ∧
    (1 : Nat) ≠ 0 := by
  exact ⟨rfl, by decide⟩

/-- C5 (amended): provided the first call's mapping is nonempty, every
subsequent call returns the same cached mapping, leaves the cache
unchanged, and issues no remote fetch.  (When the first call yields an
empty mapping the cache test `if self._instance_types:` is falsy and the
catalog is re-fetched — see the counterexample.) -/
theorem getInstanceTypes_cached
    (t : Transport) (st : CatalogState) (m : SpecDict) (st' : CatalogState)
    (n : Nat) (h : get_instance_types t st = (m, st', n)) (hm : m ≠ []) :
    get_instance_types t st' = (m, st', 0) := by
  have hme : m.isEmpty = false := by
    cases m with
    | nil => exact absurd rfl hm
    | cons a l => rfl
  cases st with
  | none =>
    simp only [get_instance_types, Prod.mk.injEq] at h
    obtain ⟨rfl, rfl, -⟩ := h
    simp [get_instance_types, hme]
  | some m0 =>
    cases h0 : m0.isEmpty with
    | true =>
      simp only [get_instance_types, h0, Bool.not_true, Bool.false_eq_true,
        if_false, Prod.mk.injEq] at h
      obtain ⟨rfl, rfl, -⟩ := h
      simp [get_instance_types, hme]
    | false =>
      simp only [get_instance_types, h0, Bool.not_false, if_true,
        Prod.mk.injEq] at h
      obtain ⟨rfl, rfl, -⟩ := h
      simp [get_instance_types, hme]

/-- C10: an empty first result is not treated as a populated cache.  If a
call to `_get_instance_types` returns the empty mapping, the next call
(from the state that call left behind) fetches the index and every
specification file again — `1 + #files` fetches — rather than serving the
cached empty mapping. -/
theorem getInstanceTypes_empty_not_cached
    (t : Transport) (st : CatalogState)
    (h : (get_instance_types t st).1 = []) :
    (get_instance_types t (get_instance_types t st).2.1).2.2 =
      fullFetchCount t ∧
    (get_instance_types t (get_instance_types t st).2.1).1 =
      fetchInstanceTypes t := by
  have hst2 : (get_instance_types t st).2.1 = some ([] : SpecDict) := by
    cases st with
    | none =>
      simp only [get_instance_types] at h ⊢
      rw [h]
    | some m0 =>
      cases h0 : m0.isEmpty with
      | true =>
        simp only [get_instance_types, h0, Bool.not_true, Bool.false_eq_true,
          if_false] at h ⊢
        rw [h]
      | false =>
        simp only [get_instance_types, h0, Bool.not_false, if_true] at h
        rw [h] at h0
        exact absurd h0 (by decide)
  rw [hst2]
  exact ⟨rfl, rfl⟩

/-- Witness for C10: an index referencing no specification files — the
first call yields the empty mapping, and the second call fetches again. -/
theorem getInstanceTypes_empty_not_cached_witness :
    (get_instance_types ⟨[], fun _ => []⟩
        ((get_instance_types ⟨[], fun _ => []⟩ none).2.1)).2.2 =
      fullFetchCount ⟨[], fun _ => []⟩ ∧
    (get_instance_types ⟨[], fun _ => []⟩
        ((get_instance_types ⟨[], fun _ => []⟩ none).2.1)).1 =
      fetchInstanceTypes ⟨[], fun _ => []⟩ :=
  getInstanceTypes_empty_not_cached ⟨[], fun _ => []⟩ none rfl

/-- Witness for C5's amended theorem: after a first call that yields a
nonempty catalog, the second call is served from the cache with no
fetches. -/
theorem getInstanceTypes_cached_witness :
    get_instance_types ⟨["f"], fun _ => [("small", ⟨2, 1⟩)]⟩
        (some [("small", ⟨2, 1⟩)]) =
      ([("small", ⟨2, 1⟩)], some [("small", ⟨2, 1⟩)], 0) :=
  getInstanceTypes_cached ⟨["f"], fun _ => [("small", ⟨2, 1⟩)]⟩ none
    [("small", ⟨2, 1⟩)] (some [("small", ⟨2, 1⟩)]) 2 rfl
    (List.cons_ne_nil _ _)

/-! ## `launch` claims -/

theorem launch_cmd_of_resolved
    (t : Transport) (isfile : String → Bool) (readf : String → String)
    (tag : String) (st : CatalogState) (image_id : String) (ty nm : String)
    (spec : InstanceSpec) (p : List Char × List Char)
    (hty : ty ≠ "") (hnm : nm ≠ "")
    (hcolon : splitFirst ':' image_id.data = some p)
    (hspec : dlookup (get_instance_types t st).1 ty = some spec) :
    launch t isfile readf tag st image_id (some ty) none true (some nm) =
      (.ok nm, (get_instance_types t st).2.1,
       [⟨["multipass", "launch", "--name", nm,
          "--cpus", toString (pyInt spec.cpu),
          "--mem", toString (pyInt (spec.mem * 1024 ^ 3)),
          image_id], none⟩]) := by
  have hty' : (ty == "") = false := beq_eq_false_iff_ne.mpr hty
  have hnm' : (nm == "") = false := beq_eq_false_iff_ne.mpr hnm
  simp [launch, optStrTruthy, hty', hnm', hcolon, hspec]

/-- C4 counterexample: a catalog entry with fractional memory `1.7` GiB.
The code issues `--mem 1825361100` (truncation, `int()`), while
`round(1.7 * 1024^3) = 1825361101`: the claimed equality with `round`
fails at this input. -/
theorem launch_mem_not_round :
    (launch ⟨["f"], fun _ => [("big", ⟨2, 17/10⟩)]⟩ (fun _ => false)
        (fun _ => "") "tag" none "daily:bionic" (some "big") none true
        (some "vm")).2.2 =
      [⟨["multipass", "launch", "--name", "vm", "--cpus", "2",
         "--mem", "1825361100", "daily:bionic"], none⟩] ∧
    specRoundBytes (17/10 : ℚ) ≠ (1825361100 : ℤ) := by
  have hmem : pyInt ((17/10 : ℚ) * 1024 ^ 3) = 1825361100 := by
    rw [pyInt, if_pos (by norm_num : (0:ℚ) ≤ (17/10 : ℚ) * 1024 ^ 3),
        Int.floor_eq_iff]
    constructor <;> norm_num
  have hcpu : pyInt (2 : ℚ) = 2 := by
    rw [pyInt, if_pos (by norm_num : (0:ℚ) ≤ (2 : ℚ)), Int.floor_eq_iff]
    constructor <;> norm_num
  constructor
  · rw [launch_cmd_of_resolved ⟨["f"], fun _ => [("big", ⟨2, 17/10⟩)]⟩
        (fun _ => false) (fun _ => "") "tag" none "daily:bionic" "big" "vm"
        ⟨2, 17/10⟩ ("daily".data, "bionic".data)
        (by decide) (by decide) rfl rfl]
    simp [hmem, hcpu]
    exact ⟨rfl, rfl⟩
  · have hround : specRoundBytes (17/10 : ℚ) = 1825361101 := by
      rw [specRoundBytes, Int.floor_eq_iff]
      constructor <;> norm_num
    rw [hround]
    decide

/-- C4 (amended): resolving an instance type applies Python `int()` —
truncation toward zero — to `mem * 1024^3`, not `round`: the `--mem`
argument is `toString (pyInt (mem * 1024^3))`.  For the integral product
`1.5 * 1024^3` truncation and rounding agree, so `mem: 1.5` yields exactly
`1610612736` bytes as the claim says. -/
theorem launch_mem_truncation
    (t : Transport) (isfile : String → Bool) (readf : String → String)
    (tag : String) (st : CatalogState) (image_id : String) (ty nm : String)
    (spec : InstanceSpec) (p : List Char × List Char)
    (hty : ty ≠ "") (hnm : nm ≠ "")
    (hcolon : splitFirst ':' image_id.data = some p)
    (hspec : dlookup (get_instance_types t st).1 ty = some spec) :
    (launch t isfile readf tag st image_id (some ty) none true
        (some nm)).2.2 =
      [⟨["multipass", "launch", "--name", nm,
         "--cpus", toString (pyInt spec.cpu),
         "--mem", toString (pyInt (spec.mem * 1024 ^ 3)),
         image_id], none⟩] ∧
    pyInt ((3/2 : ℚ) * 1024 ^ 3) = 1610612736 ∧
    specRoundBytes (3/2 : ℚ) = 1610612736 := by
  refine ⟨?_, ?_, ?_⟩
  · rw [launch_cmd_of_resolved t isfile readf tag st image_id ty nm spec p
        hty hnm hcolon hspec]
  · rw [pyInt, if_pos (by norm_num : (0:ℚ) ≤ (3/2 : ℚ) * 1024 ^ 3),
        Int.floor_eq_iff]
    constructor <;> norm_num
  · rw [specRoundBytes, Int.floor_eq_iff]
    constructor <;> norm_num

/-- Witness for C4's amended theorem at the spec's fixture
`{cpu: 2, mem: 1.5}`. -/
theorem launch_mem_truncation_witness :
    (launch ⟨["f"], fun _ => [("small", ⟨2, 3/2⟩)]⟩ (fun _ => false)
        (fun _ => "") "tag" none "daily:lunar" (some "small") none true
        (some "vm")).2.2 =
      [⟨["multipass", "launch", "--name", "vm",
         "--cpus", toString (pyInt ((⟨2, 3/2⟩ : InstanceSpec).cpu)),
         "--mem", toString (pyInt ((⟨2, 3/2⟩ : InstanceSpec).mem * 1024 ^ 3)),
         "daily:lunar"], none⟩] ∧
    pyInt ((3/2 : ℚ) * 1024 ^ 3) = 1610612736 ∧
    specRoundBytes (3/2 : ℚ) = 1610612736 :=
  launch_mem_truncation ⟨["f"], fun _ => [("small", ⟨2, 3/2⟩)]⟩
    (fun _ => false) (fun _ => "") "tag" none "daily:lunar" "small" "vm"
    ⟨2, 3/2⟩ ("daily".data, "lunar".data)
    (by decide) (by decide) rfl rfl

/-- C9: launching with an instance-type name absent from the populated
catalog fails with `UnknownInstanceTypeError` and issues no `subp`
command at all. -/
theorem launch_unknown_instance_type
    (t : Transport) (isfile : String → Bool) (readf : String → String)
    (tag : String) (st : CatalogState) (image_id : String) (ty : String)
    (user_data : Option String) (name : Option String)
    (hty : ty ≠ "")
    (habsent : dlookup (get_instance_types t st).1 ty = none) :
    (launch t isfile readf tag st image_id (some ty) user_data true
        name).1 = .error (unknownInstanceTypeError ty) ∧
    (launch t isfile readf tag st image_id (some ty) user_data true
        name).2.2 = [] := by
  have hty' : (ty == "") = false := beq_eq_false_iff_ne.mpr hty
  constructor <;> simp [launch, hty', habsent]

/-- Witness for C9: a one-entry catalog that does not contain `"huge"`. -/
theorem launch_unknown_instance_type_witness :
    (launch ⟨["f"], fun _ => [("small", ⟨2, 1⟩)]⟩ (fun _ => false)
        (fun _ => "") "tag" none "bionic" (some "huge") none true
        none).1 = .error (unknownInstanceTypeError "huge") ∧
    (launch ⟨["f"], fun _ => [("small", ⟨2, 1⟩)]⟩ (fun _ => false)
        (fun _ => "") "tag" none "bionic" (some "huge") none true
        none).2.2 = [] :=
  launch_unknown_instance_type ⟨["f"], fun _ => [("small", ⟨2, 1⟩)]⟩
    (fun _ => false) (fun _ => "") "tag" none "bionic" "huge" none none
    (by decide) rfl

end KVMCloud
